import Mathlib

/-!
Shallow embedding of the C-TurtleGraphics program (Src/sprite.c, Src/events.c,
Src/graphics.c, Src/main.c).  C `float` values are modelled as exact rationals;
the C library calls `cosf`/`sinf` are external collaborators and are abstracted
as an oracle (`Trig`) supplying the cosine and sine of an angle given in
degrees; `fmodf` is modelled exactly (truncated division, result carries the
sign of the dividend).  Rendering side effects (OpenGL calls, printf) are out
of the state; the strings passed to printf by change_color are returned as a
second component so logging behaviour is visible.
-/

namespace TurtleGraphics

/-- The marker ("turtle") state, from the `Sprite` struct in Include/sprite.h:
position `x,y`, heading `angle` in degrees, pen flag, and pen color `r,g,b`. -/
structure Sprite where
  x : ℚ
  y : ℚ
  angle : ℚ
  pen : Bool
  r : ℚ
  g : ℚ
  b : ℚ
  deriving Repr, DecidableEq

/-- One trail segment, from the `Line` struct in Src/graphics.c lines 58-61:
two endpoints and an RGB color stored by value. -/
structure Line where
  x1 : ℚ
  y1 : ℚ
  x2 : ℚ
  y2 : ℚ
  r : ℚ
  g : ℚ
  b : ℚ
  deriving Repr, DecidableEq

/-- The process-wide mutable state touched by the event loop: the global
`sprite` (sprite.c line 57), the `lines` array with its count (graphics.c
lines 67-69, modelled as a list), the three held-key flags (events.c lines
59-61) and the window dimensions owned by main. -/
structure TurtleState where
  sprite : Sprite
  lines : List Line
  keyLeftPressed : Bool
  keyRightPressed : Bool
  keyUpPressed : Bool
  windowWidth : ℤ
  windowHeight : ℤ
  deriving Repr, DecidableEq

/-- Truncation toward zero, as C float-to-int conversion inside `fmodf`. -/
def cTrunc (q : ℚ) : ℤ :=
  if 0 ≤ q then ⌊q⌋ else ⌈q⌉

/-- C `fmodf x y = x - y * trunc (x / y)`: the remainder has the sign of the
dividend `x` (truncated division, not flooring). -/
def fmodf (x y : ℚ) : ℚ :=
  x - y * (cTrunc (x / y) : ℚ)

/-- Oracle for the C math-library calls: `cosd a` models `cos(a * M_PI / 180)`
and `sind a` models `sin(a * M_PI / 180)` for an angle `a` in degrees. -/
structure Trig where
  cosd : ℚ → ℚ
  sind : ℚ → ℚ

/-- `ROTATION_INCREMENT` (events.c line 66): degrees per second. -/
def ROTATION_INCREMENT : ℚ := 90

/-- `MOVE_INCREMENT` (sprite.c line 62, events.c line 67): pixels per second. -/
def MOVE_INCREMENT : ℚ := 200

/-- `update_location` (sprite.c lines 66-116): candidate displacement of
`MOVE_INCREMENT * deltaTime` along the heading (Y negated for the screen-space
Y-down convention), then clamping of each axis so the half-extent (25 units,
`IMG_W / 2`) box is pushed back to the corresponding border. -/
def update_location (trig : Trig) (deltaTime : ℚ) (windowWidth windowHeight : ℤ)
    (s : Sprite) : Sprite :=
  let deltaX := MOVE_INCREMENT * trig.cosd s.angle * deltaTime
  let deltaY := -MOVE_INCREMENT * trig.sind s.angle * deltaTime
  let newX := s.x + deltaX
  let newY := s.y + deltaY
  let halfWidth : ℚ := 25
  let halfHeight : ℚ := 25
  let newX :=
    if newX - halfWidth < 0 then halfWidth
    else if newX + halfWidth > (windowWidth : ℚ) then (windowWidth : ℚ) - halfWidth
    else newX
  let newY :=
    if newY - halfHeight < 0 then halfHeight
    else if newY + halfHeight > (windowHeight : ℚ) then (windowHeight : ℚ) - halfHeight
    else newY
  { s with x := newX, y := newY }

/-- `update_pen` (sprite.c lines 119-133). -/
def update_pen (pen_state : Bool) (s : Sprite) : Sprite :=
  { s with pen := pen_state }

/-- `change_color` (sprite.c lines 136-189): the switch on `color_option`.
The second component is the exact string printed by the branch taken. -/
def change_color (color_option : ℤ) (s : Sprite) : Sprite × String :=
  if color_option = 1 then
    ({ s with r := 0, g := 0, b := 0 }, "Color changed to Black\n")
  else if color_option = 2 then
    ({ s with r := 0, g := 0, b := 1 }, "Color changed to Blue\n")
  else if color_option = 3 then
    ({ s with r := 1, g := 0, b := 0 }, "Color changed to Red\n")
  else if color_option = 4 then
    ({ s with r := 0, g := 1, b := 0 }, "Color changed to Green\n")
  else if color_option = 5 then
    ({ s with r := 1, g := 1, b := 0 }, "Color changed to Yellow\n")
  else
    (s, "Invalid color option\n")

/-- `add_line` (graphics.c lines 373-415): appends one segment whose
coordinates are the arguments and whose color is copied by value from the
current sprite color.  The capacity-doubling reallocation only moves storage
and is invisible at the level of the stored sequence. -/
def add_line (x1 y1 x2 y2 : ℚ) (s : Sprite) (lines : List Line) : List Line :=
  lines ++ [⟨x1, y1, x2, y2, s.r, s.g, s.b⟩]

/-- Key symbols distinguished by `handle_events` (events.c lines 80-130);
every other SDL key code behaves like `other`. -/
inductive Key where
  | right
  | left
  | up
  | d
  | u
  | k1
  | k2
  | k3
  | k4
  | k5
  | escape
  | other
  deriving Repr, DecidableEq

/-- SDL events distinguished by `handle_events` (events.c lines 76-148).
A `windowResized` carries the new dimensions (`evt.window.data1/data2`);
non-resize window events and all other event types fall into `other`. -/
inductive Event where
  | quit
  | keyDown (key : Key)
  | keyUp (key : Key)
  | windowResized (w h : ℤ)
  | other
  deriving Repr, DecidableEq

/-- One iteration of the drain loop in `handle_events` (events.c lines
76-148): the switch on `evt.type` and the inner switches on the key symbol.
`none` models the early `return false` on SDL_QUIT or the Escape key-down;
the resize case updates the stored window dimensions (the accompanying
glViewport/projection calls are render-side effects outside the state). -/
def processEvent (e : Event) (st : TurtleState) : Option TurtleState :=
  match e with
  | Event.quit => none
  | Event.keyDown k =>
    match k with
    | Key.right => some { st with keyRightPressed := true }
    | Key.left => some { st with keyLeftPressed := true }
    | Key.up => some { st with keyUpPressed := true }
    | Key.d => some { st with sprite := update_pen true st.sprite }
    | Key.u => some { st with sprite := update_pen false st.sprite }
    | Key.k1 => some { st with sprite := (change_color 1 st.sprite).1 }
    | Key.k2 => some { st with sprite := (change_color 2 st.sprite).1 }
    | Key.k3 => some { st with sprite := (change_color 3 st.sprite).1 }
    | Key.k4 => some { st with sprite := (change_color 4 st.sprite).1 }
    | Key.k5 => some { st with sprite := (change_color 5 st.sprite).1 }
    | Key.escape => none
    | Key.other => some st
  | Event.keyUp k =>
    match k with
    | Key.right => some { st with keyRightPressed := false }
    | Key.left => some { st with keyLeftPressed := false }
    | Key.up => some { st with keyUpPressed := false }
    | _ => some st
  | Event.windowResized w h => some { st with windowWidth := w, windowHeight := h }
  | Event.other => some st

/-- The `while (SDL_PollEvent(&evt) != 0)` drain (events.c line 75): events
are processed in arrival order; a `return false` (quit event or Escape)
aborts the drain at once, keeping the mutations made so far and leaving the
remaining queued events unprocessed.  The Bool is `false` when such an early
return happened. -/
def drainEvents : List Event → TurtleState → TurtleState × Bool
  | [], st => (st, true)
  | e :: rest, st =>
    match processEvent e st with
    | none => (st, false)
    | some st2 => drainEvents rest st2

/-- The level-triggered rotation updates (events.c lines 151-157): left adds
`ROTATION_INCREMENT * deltaTime` and reduces with `fmodf _ 360`; right
subtracts it, adds 360 and reduces with `fmodf _ 360`. -/
def rotation_update (deltaTime : ℚ) (st : TurtleState) : TurtleState :=
  let st :=
    if st.keyLeftPressed then
      { st with sprite := { st.sprite with
          angle := fmodf (st.sprite.angle + ROTATION_INCREMENT * deltaTime) 360 } }
    else st
  if st.keyRightPressed then
    { st with sprite := { st.sprite with
        angle := fmodf (st.sprite.angle - ROTATION_INCREMENT * deltaTime + 360) 360 } }
  else st

/-- The level-triggered movement update (events.c lines 160-169): when the Up
key is held, remember the previous position, run `update_location`, and if
the pen is down append one segment from the previous to the new position. -/
def movement_update (trig : Trig) (deltaTime : ℚ) (st : TurtleState) : TurtleState :=
  if st.keyUpPressed then
    let previous_x := st.sprite.x
    let previous_y := st.sprite.y
    let sp := update_location trig deltaTime st.windowWidth st.windowHeight st.sprite
    let ls := if sp.pen then add_line previous_x previous_y sp.x sp.y sp st.lines else st.lines
    { st with sprite := sp, lines := ls }
  else st

/-- `handle_events` (events.c lines 71-172): drain all pending events (with
possible early `return false`), then, only when the drain completed, apply
the rotation and movement updates and return true. -/
def handle_events (trig : Trig) (deltaTime : ℚ) (events : List Event)
    (st : TurtleState) : Bool × TurtleState :=
  match drainEvents events st with
  | (st2, false) => (false, st2)
  | (st2, true) => (true, movement_update trig deltaTime (rotation_update deltaTime st2))

/-- The overlay's color-name derivation (graphics.c lines 282-287): the
chain of exact-equality ternaries over the sprite color components, falling
back to "Custom". -/
def colorNameOf (r g b : ℚ) : String :=
  if r = 0 ∧ g = 0 ∧ b = 0 then "Black"
  else if r = 0 ∧ g = 0 ∧ b = 1 then "Blue"
  else if r = 1 ∧ g = 0 ∧ b = 0 then "Red"
  else if r = 0 ∧ g = 1 ∧ b = 0 then "Green"
  else if r = 1 ∧ g = 1 ∧ b = 0 then "Yellow"
  else "Custom"

/-- The state after successful initialization in `main` (main.c lines 79-80
and 164-171): 800x800 window unless resized, sprite centered, heading 0, pen
up, color black; `lines` empty (`lineCount = 0`, graphics.c line 69); no key
held. -/
def initialState (w h : ℤ) : TurtleState :=
  { sprite := { x := (w : ℚ) / 2, y := (h : ℚ) / 2, angle := 0, pen := false,
                r := 0, g := 0, b := 0 }
    lines := []
    keyLeftPressed := false
    keyRightPressed := false
    keyUpPressed := false
    windowWidth := w
    windowHeight := h }

/-- `WINDOW_WIDTH`/`WINDOW_HEIGHT` are both 800 (main.c lines 66-67), so this
is the session state right after initialization. -/
def startState : TurtleState := initialState 800 800

/-- The sprite color triples `change_color` can install: the five palette
entries black, blue, red, green, yellow. -/
def paletteTriple (r g b : ℚ) : Prop :=
  (r = 0 ∧ g = 0 ∧ b = 0) ∨ (r = 0 ∧ g = 0 ∧ b = 1) ∨ (r = 1 ∧ g = 0 ∧ b = 0) ∨
    (r = 0 ∧ g = 1 ∧ b = 0) ∨ (r = 1 ∧ g = 1 ∧ b = 0)

instance (r g b : ℚ) : Decidable (paletteTriple r g b) := by
  unfold paletteTriple
  infer_instance

/-- The states the event loop of `main` (main.c lines 174-190) can reach:
the initial state, closed under calls of `handle_events` with any trig
oracle, frame time and pending event queue. -/
inductive Reachable : TurtleState → Prop where
  | init : Reachable startState
  | step (st : TurtleState) (trig : Trig) (dt : ℚ) (events : List Event) :
      Reachable st → Reachable (handle_events trig dt events st).2

/-- A trig oracle agreeing with cosine/sine at heading 0 (cos 0 = 1,
sin 0 = 0), used to instantiate scenarios that start at heading 0. -/
def trigEast : Trig := ⟨fun _ => 1, fun _ => 0⟩

/-- A trig oracle agreeing with cosine/sine at heading 180 (cos 180 = -1,
sin 180 = 0), used to instantiate scenarios that start at heading 180. -/
def trigWest : Trig := ⟨fun _ => -1, fun _ => 0⟩

/-! ### Helper lemmas about `fmodf` -/

/-- For a nonnegative dividend, `fmodf x 360` lies in `[0, 360)` and differs
from `x` by an integer multiple of 360. -/
theorem fmodf_step (x : ℚ) (hx : 0 ≤ x) :
    0 ≤ fmodf x 360 ∧ fmodf x 360 < 360 ∧ ∃ k : ℤ, fmodf x 360 = x + 360 * k := by
  have hq : 0 ≤ x / 360 := by positivity
  have h1 : (⌊x / 360⌋ : ℚ) ≤ x / 360 := Int.floor_le _
  have h2 : x / 360 < ⌊x / 360⌋ + 1 := Int.lt_floor_add_one _
  have hx360 : x / 360 * 360 = x := by
    field_simp
  unfold fmodf cTrunc
  rw [if_pos hq]
  refine ⟨by nlinarith, by nlinarith, ⟨-⌊x / 360⌋, by push_cast; ring⟩⟩

/-- For any dividend, positive or negative, `fmodf x 360` differs from `x`
by an integer multiple of 360. -/
theorem fmodf_congruent (x : ℚ) : ∃ k : ℤ, fmodf x 360 = x + 360 * k :=
  ⟨-cTrunc (x / 360), by unfold fmodf; push_cast; ring⟩

/-- A state with the right-arrow key held, for exercising the right-rotation
branch of `rotation_update`. -/
def stRightHeld : TurtleState := { startState with keyRightPressed := true }

/-- C1 counterexample.  With starting heading 0 (in `[0,360)`) and
`deltaTime = 5` (so the rotation delta is `-90·5 = -450`), the
right-rotation update computes `fmodf (0 - 450 + 360) 360 = fmodf (-90) 360
= -90`: the resulting heading is negative, not in `[0,360)`, refuting the
claim that the result is always in `[0,360)` for every non-negative
deltaTime. -/
theorem heading_normalization_cex :
    (rotation_update 5 stRightHeld).sprite.angle = -90 ∧
      ¬ (0 ≤ (rotation_update 5 stRightHeld).sprite.angle ∧
          (rotation_update 5 stRightHeld).sprite.angle < 360) := by
  have hval : (rotation_update 5 stRightHeld).sprite.angle = -90 := by
    norm_num [rotation_update, stRightHeld, startState, initialState, fmodf, cTrunc,
      ROTATION_INCREMENT]
  refine ⟨hval, ?_⟩
  rw [hval]
  norm_num

/-- C1 (amended): for every starting heading `h ∈ [0,360)` and every
non-negative `deltaTime`, the heading after the left/right level-triggered
updates is congruent modulo 360 to `h + d`, where `d` is the net applied
delta (`+90·dt` if left is held, `-90·dt` if right is held); and whenever
the per-frame rotation magnitude `ROTATION_INCREMENT * deltaTime` is at most
360 degrees, the resulting heading moreover lies in `[0,360)`. -/
theorem heading_normalization (st : TurtleState) (dt : ℚ)
    (h0 : 0 ≤ st.sprite.angle) (h1 : st.sprite.angle < 360) (hdt : 0 ≤ dt) :
    (∃ k : ℤ, (rotation_update dt st).sprite.angle =
        st.sprite.angle +
          ((if st.keyLeftPressed then ROTATION_INCREMENT * dt else 0) -
            (if st.keyRightPressed then ROTATION_INCREMENT * dt else 0)) + 360 * k) ∧
      (ROTATION_INCREMENT * dt ≤ 360 →
        0 ≤ (rotation_update dt st).sprite.angle ∧
          (rotation_update dt st).sprite.angle < 360) := by
  have hR : (0 : ℚ) ≤ ROTATION_INCREMENT * dt := by
    have : (0 : ℚ) ≤ ROTATION_INCREMENT := by norm_num [ROTATION_INCREMENT]
    exact mul_nonneg this hdt
  unfold rotation_update
  cases hl : st.keyLeftPressed <;> cases hr : st.keyRightPressed <;>
    simp only [hl, hr, Bool.false_eq_true, if_true, if_false, ite_true, ite_false]
  · exact ⟨⟨0, by ring⟩, fun _ => ⟨h0, h1⟩⟩
  · obtain ⟨k, hk⟩ := fmodf_congruent (st.sprite.angle - ROTATION_INCREMENT * dt + 360)
    refine ⟨⟨k + 1, by rw [hk]; push_cast; ring⟩, fun hframe => ?_⟩
    obtain ⟨a0, a1, -⟩ :=
      fmodf_step (st.sprite.angle - ROTATION_INCREMENT * dt + 360) (by linarith)
    exact ⟨a0, a1⟩
  · obtain ⟨k, hk⟩ := fmodf_congruent (st.sprite.angle + ROTATION_INCREMENT * dt)
    refine ⟨⟨k, by rw [hk]; ring⟩, fun hframe => ?_⟩
    obtain ⟨a0, a1, -⟩ :=
      fmodf_step (st.sprite.angle + ROTATION_INCREMENT * dt) (by linarith)
    exact ⟨a0, a1⟩
  · obtain ⟨k1, hk1⟩ := fmodf_congruent (st.sprite.angle + ROTATION_INCREMENT * dt)
    obtain ⟨k2, hk2⟩ :=
      fmodf_congruent (fmodf (st.sprite.angle + ROTATION_INCREMENT * dt) 360 -
        ROTATION_INCREMENT * dt + 360)
    refine ⟨⟨k1 + k2 + 1, by rw [hk2, hk1]; push_cast; ring⟩, fun hframe => ?_⟩
    obtain ⟨b0, b1, -⟩ :=
      fmodf_step (st.sprite.angle + ROTATION_INCREMENT * dt) (by linarith)
    obtain ⟨a0, a1, -⟩ :=
      fmodf_step (fmodf (st.sprite.angle + ROTATION_INCREMENT * dt) 360 -
        ROTATION_INCREMENT * dt + 360) (by linarith)
    exact ⟨a0, a1⟩

/-- C1 witness: the amended theorem applied at the initial state with
`deltaTime = 1`, with the in-range part of the conclusion also discharged
at the concrete frame bound `90 * 1 ≤ 360`. -/
theorem heading_normalization_witness :
    (0 ≤ startState.sprite.angle ∧ startState.sprite.angle < 360 ∧ (0 : ℚ) ≤ 1) ∧
      ((∃ k : ℤ, (rotation_update 1 startState).sprite.angle =
          startState.sprite.angle +
            ((if startState.keyLeftPressed then ROTATION_INCREMENT * 1 else 0) -
              (if startState.keyRightPressed then ROTATION_INCREMENT * 1 else 0)) + 360 * k) ∧
        (ROTATION_INCREMENT * (1 : ℚ) ≤ 360 →
          0 ≤ (rotation_update 1 startState).sprite.angle ∧
            (rotation_update 1 startState).sprite.angle < 360)) ∧
      (0 ≤ (rotation_update 1 startState).sprite.angle ∧
        (rotation_update 1 startState).sprite.angle < 360) :=
  ⟨⟨by norm_num [startState, initialState], by norm_num [startState, initialState],
      by norm_num⟩,
    heading_normalization startState 1 (by norm_num [startState, initialState])
      (by norm_num [startState, initialState]) (by norm_num),
    (heading_normalization startState 1 (by norm_num [startState, initialState])
      (by norm_num [startState, initialState]) (by norm_num)).2
      (by norm_num [ROTATION_INCREMENT])⟩

/-- A sprite sitting at the corner clamp position (25, 25), as produced by the
clamping itself in a window of at least 50x50 before a shrinking resize. -/
def spriteAtCorner : Sprite := ⟨25, 25, 0, false, 0, 0, 0⟩

/-- C2 counterexample.  In a 30x30 window (windows are freely resizable by
the host), a marker at (25, 25) with zero candidate displacement is clamped
to x = 30 - 25 = 5, whose half-extent box `[-20, 30]` leaves `[0, 30]`: the
claim fails for windows smaller than the sprite. -/
theorem position_clamping_cex :
    (update_location trigEast 0 30 30 spriteAtCorner).x = 5 ∧
      ¬ (0 ≤ (update_location trigEast 0 30 30 spriteAtCorner).x - 25) := by
  have hval : (update_location trigEast 0 30 30 spriteAtCorner).x = 5 := by
    norm_num [update_location, trigEast, spriteAtCorner, MOVE_INCREMENT]
  refine ⟨hval, ?_⟩
  rw [hval]
  norm_num

/-- C2 (amended): for every window at least 50x50 (the sprite's full extent)
and every candidate displacement (any trig oracle, i.e. any heading, and any
deltaTime), the position produced by `update_location` keeps the half-extent
box `position ± 25` inside `[0, W] × [0, H]`. -/
theorem position_clamping (trig : Trig) (dt : ℚ) (W H : ℤ) (s : Sprite)
    (hW : 50 ≤ W) (hH : 50 ≤ H) :
    0 ≤ (update_location trig dt W H s).x - 25 ∧
      (update_location trig dt W H s).x + 25 ≤ (W : ℚ) ∧
      0 ≤ (update_location trig dt W H s).y - 25 ∧
      (update_location trig dt W H s).y + 25 ≤ (H : ℚ) := by
  have hWq : (50 : ℚ) ≤ (W : ℚ) := by exact_mod_cast hW
  have hHq : (50 : ℚ) ≤ (H : ℚ) := by exact_mod_cast hH
  simp only [update_location]
  split_ifs <;> refine ⟨by linarith, by linarith, by linarith, by linarith⟩

/-- C2 witness: the amended theorem at the 800x800 startup window. -/
theorem position_clamping_witness :
    ((50 : ℤ) ≤ 800 ∧ (50 : ℤ) ≤ 800) ∧
      0 ≤ (update_location trigEast 1 800 800 startState.sprite).x - 25 ∧
      (update_location trigEast 1 800 800 startState.sprite).x + 25 ≤ ((800 : ℤ) : ℚ) ∧
      0 ≤ (update_location trigEast 1 800 800 startState.sprite).y - 25 ∧
      (update_location trigEast 1 800 800 startState.sprite).y + 25 ≤ ((800 : ℤ) : ℚ) :=
  ⟨⟨by norm_num, by norm_num⟩,
    position_clamping trigEast 1 800 800 startState.sprite (by norm_num) (by norm_num)⟩

/-- Draining a concatenation: when the first part completes without an early
return, the drain continues through the second part from the reached state. -/
theorem drainEvents_append (es1 es2 : List Event) (st : TurtleState)
    (h : (drainEvents es1 st).2 = true) :
    drainEvents (es1 ++ es2) st = drainEvents es2 (drainEvents es1 st).1 := by
  induction es1 generalizing st with
  | nil => simp [drainEvents]
  | cons e rest ih =>
    simp only [List.cons_append, drainEvents]
    cases hpe : processEvent e st with
    | none =>
      exfalso
      simp [drainEvents, hpe] at h
    | some st2 =>
      simp only [hpe]
      exact ih st2 (by simpa [drainEvents, hpe] using h)

/-- C3 counterexample.  With the pending queue `[quit, key-down D]` the call
returns false with the state untouched: the D key-down queued after the quit
event is not drained and its pen toggle is not applied, refuting the claim
that all pending events are processed before the quit takes effect. -/
theorem input_drain_cex :
    handle_events trigEast 1 [Event.quit, Event.keyDown Key.d] startState =
      (false, startState) ∧
      ((handle_events trigEast 1 [Event.quit, Event.keyDown Key.d] startState).2).sprite.pen
        = false :=
  ⟨rfl, rfl⟩

/-- C3 (amended): `handle_events` drains the pending events in arrival order
only up to the first quit request (quit event or Escape key-down); the
transitions of earlier events are applied, the quit makes the call return
false immediately with the state reached so far, later-queued events are left
unprocessed (the result does not depend on them), and the level-triggered
updates are skipped. -/
theorem quit_aborts_drain (trig : Trig) (dt : ℚ) (es1 es2 : List Event) (e : Event)
    (st : TurtleState) (h1 : (drainEvents es1 st).2 = true)
    (h2 : processEvent e (drainEvents es1 st).1 = none) :
    handle_events trig dt (es1 ++ e :: es2) st = (false, (drainEvents es1 st).1) := by
  have hd : drainEvents (es1 ++ e :: es2) st = ((drainEvents es1 st).1, false) := by
    rw [drainEvents_append es1 (e :: es2) st h1]
    simp [drainEvents, h2]
  simp [handle_events, hd]

/-- C3 witness: a D key-down before the quit is applied (pen goes down), a
U key-down after the quit is ignored. -/
theorem quit_aborts_drain_witness :
    ((drainEvents [Event.keyDown Key.d] startState).2 = true ∧
        processEvent Event.quit (drainEvents [Event.keyDown Key.d] startState).1 = none) ∧
      handle_events trigEast 1 ([Event.keyDown Key.d] ++ Event.quit :: [Event.keyDown Key.u])
          startState =
        (false, (drainEvents [Event.keyDown Key.d] startState).1) ∧
      ((drainEvents [Event.keyDown Key.d] startState).1).sprite.pen = true :=
  ⟨⟨rfl, rfl⟩,
    quit_aborts_drain trigEast 1 [Event.keyDown Key.d] [Event.keyDown Key.u] Event.quit
      startState rfl rfl,
    rfl⟩

/-- A session state with the marker at (400, 400) in an 800x800 window,
heading 0, pen down, color `(r, g, b)`, trail `ls`, and the Up key held. -/
def scenarioState (r g b : ℚ) (ls : List Line) : TurtleState :=
  { sprite := ⟨400, 400, 0, true, r, g, b⟩
    lines := ls
    keyLeftPressed := false
    keyRightPressed := false
    keyUpPressed := true
    windowWidth := 800
    windowHeight := 800 }

/-- C4: for any trig oracle agreeing with cosine/sine at 0 degrees, a frame
with no pending events, marker at (400, 400) in an 800x800 window, heading 0,
pen down and the Up key held moves the marker to (600, 400) with
`deltaTime = 1` (displacement `200·cos(0)·1 = 200` along +X,
`-200·sin(0)·1 = 0` along Y, no clamping engaged) and appends exactly one
trail segment (400,400)-(600,400) carrying the marker's current color. -/
theorem advance_scenario (trig : Trig) (hc : trig.cosd 0 = 1) (hs : trig.sind 0 = 0)
    (r g b : ℚ) (ls : List Line) :
    (handle_events trig 1 [] (scenarioState r g b ls)).1 = true ∧
      ((handle_events trig 1 [] (scenarioState r g b ls)).2).sprite.x = 600 ∧
      ((handle_events trig 1 [] (scenarioState r g b ls)).2).sprite.y = 400 ∧
      ((handle_events trig 1 [] (scenarioState r g b ls)).2).lines =
        ls ++ [⟨400, 400, 600, 400, r, g, b⟩] := by
  norm_num [handle_events, drainEvents, rotation_update, movement_update, update_location,
    add_line, scenarioState, MOVE_INCREMENT, hc, hs]

/-- C4 witness: the scenario instantiated with the `trigEast` oracle (which
has cosine 1 and sine 0 at heading 0), black color and an empty trail. -/
theorem advance_scenario_witness :
    (trigEast.cosd 0 = 1 ∧ trigEast.sind 0 = 0) ∧
      (handle_events trigEast 1 [] (scenarioState 0 0 0 [])).1 = true ∧
      ((handle_events trigEast 1 [] (scenarioState 0 0 0 [])).2).sprite.x = 600 ∧
      ((handle_events trigEast 1 [] (scenarioState 0 0 0 [])).2).sprite.y = 400 ∧
      ((handle_events trigEast 1 [] (scenarioState 0 0 0 [])).2).lines =
        [] ++ [⟨400, 400, 600, 400, 0, 0, 0⟩] :=
  ⟨⟨rfl, rfl⟩, advance_scenario trigEast rfl rfl 0 0 0 []⟩

/-- C5: `change_color` with any option outside 1..5 returns the sprite state
completely unchanged together with the logged "Invalid color option" message
(and, being a total function, never aborts the program), while options 1..5
install exactly the fixed palette entries black, blue, red, green, yellow. -/
theorem setColor_contract (opt : ℤ) (s : Sprite) (h : ¬ (1 ≤ opt ∧ opt ≤ 5)) :
    change_color opt s = (s, "Invalid color option\n") ∧
      change_color 1 s = ({ s with r := 0, g := 0, b := 0 }, "Color changed to Black\n") ∧
      change_color 2 s = ({ s with r := 0, g := 0, b := 1 }, "Color changed to Blue\n") ∧
      change_color 3 s = ({ s with r := 1, g := 0, b := 0 }, "Color changed to Red\n") ∧
      change_color 4 s = ({ s with r := 0, g := 1, b := 0 }, "Color changed to Green\n") ∧
      change_color 5 s = ({ s with r := 1, g := 1, b := 0 }, "Color changed to Yellow\n") := by
    refine ⟨?_, rfl, rfl, rfl, rfl, rfl⟩
    unfold change_color
    split_ifs with h1 h2 h3 h4 h5
    · omega
    · omega
    · omega
    · omega
    · omega
    · rfl

/-- C5 witness: `setColor(6)` leaves a red marker unchanged and yields the
invalid-option log line. -/
theorem setColor_contract_witness :
    (¬ ((1 : ℤ) ≤ 6 ∧ (6 : ℤ) ≤ 5)) ∧
      change_color 6 (⟨400, 400, 0, true, 1, 0, 0⟩ : Sprite) =
        (⟨400, 400, 0, true, 1, 0, 0⟩, "Invalid color option\n") ∧
      change_color 1 (⟨400, 400, 0, true, 1, 0, 0⟩ : Sprite) =
        (⟨400, 400, 0, true, 0, 0, 0⟩, "Color changed to Black\n") :=
  ⟨by omega,
    (setColor_contract 6 ⟨400, 400, 0, true, 1, 0, 0⟩ (by omega)).1,
    (setColor_contract 6 ⟨400, 400, 0, true, 1, 0, 0⟩ (by omega)).2.1⟩

/-- C6: applying the overlay's color-name derivation after `change_color`
yields exactly the expected palette name for each of the five options, and
any RGB triple equal to none of the five palette entries is named "Custom". -/
theorem palette_naming (s : Sprite) (r g b : ℚ) (h : ¬ paletteTriple r g b) :
    colorNameOf ((change_color 1 s).1).r ((change_color 1 s).1).g ((change_color 1 s).1).b
        = "Black" ∧
      colorNameOf ((change_color 2 s).1).r ((change_color 2 s).1).g ((change_color 2 s).1).b
        = "Blue" ∧
      colorNameOf ((change_color 3 s).1).r ((change_color 3 s).1).g ((change_color 3 s).1).b
        = "Red" ∧
      colorNameOf ((change_color 4 s).1).r ((change_color 4 s).1).g ((change_color 4 s).1).b
        = "Green" ∧
      colorNameOf ((change_color 5 s).1).r ((change_color 5 s).1).g ((change_color 5 s).1).b
        = "Yellow" ∧
      colorNameOf r g b = "Custom" := by
  refine ⟨by norm_num [change_color, colorNameOf], by norm_num [change_color, colorNameOf],
    by norm_num [change_color, colorNameOf], by norm_num [change_color, colorNameOf],
    by norm_num [change_color, colorNameOf], ?_⟩
  unfold colorNameOf
  split_ifs with h1 h2 h3 h4 h5
  · exact absurd (Or.inl h1) h
  · exact absurd (Or.inr (Or.inl h2)) h
  · exact absurd (Or.inr (Or.inr (Or.inl h3))) h
  · exact absurd (Or.inr (Or.inr (Or.inr (Or.inl h4)))) h
  · exact absurd (Or.inr (Or.inr (Or.inr (Or.inr h5)))) h
  · rfl

/-- C6 witness: the round trip at the startup sprite, with the non-palette
triple (1/2, 0, 0) named "Custom". -/
theorem palette_naming_witness :
    (¬ paletteTriple (1 / 2) 0 0) ∧
      colorNameOf ((change_color 1 startState.sprite).1).r
          ((change_color 1 startState.sprite).1).g
          ((change_color 1 startState.sprite).1).b = "Black" ∧
      colorNameOf (1 / 2) 0 0 = "Custom" :=
  ⟨by norm_num [paletteTriple],
    (palette_naming startState.sprite (1 / 2) 0 0 (by norm_num [paletteTriple])).1,
    (palette_naming startState.sprite (1 / 2) 0 0 (by norm_num [paletteTriple])).2.2.2.2.2⟩

/-! ### Frame lemmas: what the individual transitions leave untouched -/

/-- A successfully processed discrete event never changes the trail, the
marker position, or the pen-color-irrelevant structure of the sprite other
than through `update_pen`/`change_color`. -/
theorem processEvent_frame (e : Event) (st st2 : TurtleState)
    (h : processEvent e st = some st2) :
    st2.lines = st.lines ∧ st2.sprite.x = st.sprite.x ∧ st2.sprite.y = st.sprite.y := by
  cases e with
  | quit => simp [processEvent] at h
  | keyDown k =>
    cases k <;> simp only [processEvent, Option.some.injEq] at h <;>
      first
        | (subst h; exact ⟨rfl, rfl, rfl⟩)
        | exact Option.noConfusion h
  | keyUp k =>
    cases k <;> simp only [processEvent, Option.some.injEq] at h <;>
      (subst h; exact ⟨rfl, rfl, rfl⟩)
  | windowResized w hh =>
    simp only [processEvent, Option.some.injEq] at h
    subst h
    exact ⟨rfl, rfl, rfl⟩
  | other =>
    simp only [processEvent, Option.some.injEq] at h
    subst h
    exact ⟨rfl, rfl, rfl⟩

/-- Draining any queue never changes the trail or the marker position,
whether or not the drain was aborted by a quit request. -/
theorem drainEvents_frame (es : List Event) (st : TurtleState) :
    ((drainEvents es st).1).lines = st.lines ∧
      ((drainEvents es st).1).sprite.x = st.sprite.x ∧
      ((drainEvents es st).1).sprite.y = st.sprite.y := by
  induction es generalizing st with
  | nil => exact ⟨rfl, rfl, rfl⟩
  | cons e rest ih =>
    simp only [drainEvents]
    cases hpe : processEvent e st with
    | none => exact ⟨rfl, rfl, rfl⟩
    | some st2 =>
      obtain ⟨hl, hx, hy⟩ := processEvent_frame e st st2 hpe
      obtain ⟨il, ix, iy⟩ := ih st2
      exact ⟨il.trans hl, ix.trans hx, iy.trans hy⟩

/-- The rotation updates only touch the heading: trail, position, pen, color,
held-key flags and window dimensions are unchanged. -/
theorem rotation_update_frame (dt : ℚ) (st : TurtleState) :
    (rotation_update dt st).lines = st.lines ∧
      (rotation_update dt st).sprite.x = st.sprite.x ∧
      (rotation_update dt st).sprite.y = st.sprite.y ∧
      (rotation_update dt st).sprite.pen = st.sprite.pen ∧
      (rotation_update dt st).sprite.r = st.sprite.r ∧
      (rotation_update dt st).sprite.g = st.sprite.g ∧
      (rotation_update dt st).sprite.b = st.sprite.b ∧
      (rotation_update dt st).keyUpPressed = st.keyUpPressed ∧
      (rotation_update dt st).windowWidth = st.windowWidth ∧
      (rotation_update dt st).windowHeight = st.windowHeight := by
  unfold rotation_update
  cases hl : st.keyLeftPressed <;> cases hr : st.keyRightPressed <;> simp [hl, hr]

/-- `update_location` only moves the marker: heading, pen and color are
unchanged. -/
theorem update_location_frame (trig : Trig) (dt : ℚ) (W H : ℤ) (s : Sprite) :
    (update_location trig dt W H s).angle = s.angle ∧
      (update_location trig dt W H s).pen = s.pen ∧
      (update_location trig dt W H s).r = s.r ∧
      (update_location trig dt W H s).g = s.g ∧
      (update_location trig dt W H s).b = s.b := by
  simp [update_location]

/-- The movement update appends some (possibly empty) suffix to the trail and
never edits the existing segments. -/
theorem movement_update_lines (trig : Trig) (dt : ℚ) (st : TurtleState) :
    ∃ tail, (movement_update trig dt st).lines = st.lines ++ tail := by
  unfold movement_update
  cases hu : st.keyUpPressed with
  | false => exact ⟨[], by simp⟩
  | true =>
    by_cases hp :
        (update_location trig dt st.windowWidth st.windowHeight st.sprite).pen = true
    · refine ⟨[⟨st.sprite.x, st.sprite.y,
        (update_location trig dt st.windowWidth st.windowHeight st.sprite).x,
        (update_location trig dt st.windowWidth st.windowHeight st.sprite).y,
        (update_location trig dt st.windowWidth st.windowHeight st.sprite).r,
        (update_location trig dt st.windowWidth st.windowHeight st.sprite).g,
        (update_location trig dt st.windowWidth st.windowHeight st.sprite).b⟩], ?_⟩
      simp [hp, add_line]
    · exact ⟨[], by simp [hp]⟩

/-- The movement update never changes the pen color. -/
theorem movement_update_color (trig : Trig) (dt : ℚ) (st : TurtleState) :
    (movement_update trig dt st).sprite.r = st.sprite.r ∧
      (movement_update trig dt st).sprite.g = st.sprite.g ∧
      (movement_update trig dt st).sprite.b = st.sprite.b := by
  unfold movement_update
  cases hu : st.keyUpPressed <;> simp [update_location]

/-- C7: `change_color` applied to the session state leaves the trail store
untouched (segment colors were copied by value at append time, never aliased
to the marker color), and more generally a whole `handle_events` call only
ever appends to the trail: every previously appended segment keeps its
endpoints and color components. -/
theorem trail_color_snapshot (trig : Trig) (dt : ℚ) (events : List Event)
    (st : TurtleState) (opt : ℤ) :
    ({ st with sprite := (change_color opt st.sprite).1 } : TurtleState).lines = st.lines ∧
      ∃ tail, ((handle_events trig dt events st).2).lines = st.lines ++ tail := by
  refine ⟨rfl, ?_⟩
  rcases hd : drainEvents events st with ⟨st2, b⟩
  have hlines : st2.lines = st.lines := by
    have h := (drainEvents_frame events st).1
    rw [hd] at h
    exact h
  cases b with
  | false => exact ⟨[], by simp [handle_events, hd, hlines]⟩
  | true =>
    obtain ⟨tail, ht⟩ := movement_update_lines trig dt (rotation_update dt st2)
    refine ⟨tail, ?_⟩
    simp only [handle_events, hd]
    rw [ht, (rotation_update_frame dt st2).1, hlines]

/-- Every discrete event keeps the marker color inside the palette: key
events either leave the color components alone or install one of the five
palette entries through `change_color`. -/
theorem processEvent_palette (e : Event) (st st2 : TurtleState)
    (h : processEvent e st = some st2)
    (hp : paletteTriple st.sprite.r st.sprite.g st.sprite.b) :
    paletteTriple st2.sprite.r st2.sprite.g st2.sprite.b := by
  cases e with
  | quit => simp [processEvent] at h
  | keyDown k =>
    cases k <;> simp only [processEvent, Option.some.injEq] at h
    case right => subst h; exact hp
    case left => subst h; exact hp
    case up => subst h; exact hp
    case d => subst h; exact hp
    case u => subst h; exact hp
    case k1 => subst h; exact Or.inl ⟨rfl, rfl, rfl⟩
    case k2 => subst h; exact Or.inr (Or.inl ⟨rfl, rfl, rfl⟩)
    case k3 => subst h; exact Or.inr (Or.inr (Or.inl ⟨rfl, rfl, rfl⟩))
    case k4 => subst h; exact Or.inr (Or.inr (Or.inr (Or.inl ⟨rfl, rfl, rfl⟩)))
    case k5 => subst h; exact Or.inr (Or.inr (Or.inr (Or.inr ⟨rfl, rfl, rfl⟩)))
    case escape => exact Option.noConfusion h
    case other => subst h; exact hp
  | keyUp k =>
    cases k <;> simp only [processEvent, Option.some.injEq] at h <;> (subst h; exact hp)
  | windowResized w hh =>
    simp only [processEvent, Option.some.injEq] at h
    subst h
    exact hp
  | other =>
    simp only [processEvent, Option.some.injEq] at h
    subst h
    exact hp

/-- Draining any event queue keeps the marker color inside the palette. -/
theorem drainEvents_palette (es : List Event) (st : TurtleState)
    (hp : paletteTriple st.sprite.r st.sprite.g st.sprite.b) :
    paletteTriple ((drainEvents es st).1).sprite.r ((drainEvents es st).1).sprite.g
      ((drainEvents es st).1).sprite.b := by
  induction es generalizing st with
  | nil => exact hp
  | cons e rest ih =>
    simp only [drainEvents]
    cases hpe : processEvent e st with
    | none => exact hp
    | some st2 => exact ih st2 (processEvent_palette e st st2 hpe hp)

/-- A palette color is never named "Custom" by the overlay derivation. -/
theorem paletteTriple_colorNameOf {r g b : ℚ} (hp : paletteTriple r g b) :
    colorNameOf r g b ≠ "Custom" := by
  rcases hp with ⟨h1, h2, h3⟩ | ⟨h1, h2, h3⟩ | ⟨h1, h2, h3⟩ | ⟨h1, h2, h3⟩ | ⟨h1, h2, h3⟩ <;>
    subst h1 <;> subst h2 <;> subst h3 <;> (norm_num [colorNameOf]; decide)

/-- The palette invariant holds in every reachable state. -/
theorem reachable_palette_aux (st : TurtleState) (h : Reachable st) :
    paletteTriple st.sprite.r st.sprite.g st.sprite.b := by
  induction h with
  | init => exact Or.inl ⟨rfl, rfl, rfl⟩
  | step st trig dt events _ ih =>
    rcases hd : drainEvents events st with ⟨st2, b⟩
    have hp2 : paletteTriple st2.sprite.r st2.sprite.g st2.sprite.b := by
      have h2 := drainEvents_palette events st ih
      rw [hd] at h2
      exact h2
    cases b with
    | false => simpa [handle_events, hd] using hp2
    | true =>
      simp only [handle_events, hd]
      obtain ⟨hr, hg, hb⟩ := movement_update_color trig dt (rotation_update dt st2)
      rw [hr, hg, hb, (rotation_update_frame dt st2).2.2.2.2.1,
        (rotation_update_frame dt st2).2.2.2.2.2.1,
        (rotation_update_frame dt st2).2.2.2.2.2.2.1]
      exact hp2

/-- C8: in every reachable session state the marker color is exactly one of
the five palette entries, so the overlay's "Custom" fallback branch can never
be taken. -/
theorem marker_color_always_palette (st : TurtleState) (h : Reachable st) :
    paletteTriple st.sprite.r st.sprite.g st.sprite.b ∧
      colorNameOf st.sprite.r st.sprite.g st.sprite.b ≠ "Custom" :=
  ⟨reachable_palette_aux st h, paletteTriple_colorNameOf (reachable_palette_aux st h)⟩

/-- C8 witness: the invariant at the initial state. -/
theorem marker_color_always_palette_witness :
    Reachable startState ∧
      paletteTriple startState.sprite.r startState.sprite.g startState.sprite.b ∧
      colorNameOf startState.sprite.r startState.sprite.g startState.sprite.b ≠ "Custom" :=
  ⟨Reachable.init, marker_color_always_palette startState Reachable.init⟩

/-- The call `update_location(deltaTime, *windowWidth, *windowHeight)` made
by the movement branch of `handle_events` (events.c line 163), reading the
globals of the given session state. -/
def forward_target (trig : Trig) (dt : ℚ) (st : TurtleState) : Sprite :=
  update_location trig dt st.windowWidth st.windowHeight st.sprite

/-- When the drain completes, `handle_events` returns true and the state
produced by the rotation and movement updates on the drained state. -/
theorem handle_events_cont (trig : Trig) (dt : ℚ) (events : List Event)
    (st : TurtleState) (hcont : (drainEvents events st).2 = true) :
    (handle_events trig dt events st).2 =
        movement_update trig dt (rotation_update dt (drainEvents events st).1) ∧
      (handle_events trig dt events st).1 = true := by
  unfold handle_events
  rcases hd : drainEvents events st with ⟨st1, b⟩
  rw [hd] at hcont
  simp only at hcont
  subst hcont
  exact ⟨rfl, rfl⟩

/-- With the Up key held and the pen down, the movement update appends
exactly the segment from the current position to the `update_location`
result, stamped with the post-move sprite color. -/
theorem movement_update_pen_down (trig : Trig) (dt : ℚ) (st : TurtleState)
    (hup : st.keyUpPressed = true) (hpen : st.sprite.pen = true) :
    (movement_update trig dt st).lines =
      st.lines ++ [⟨st.sprite.x, st.sprite.y, (forward_target trig dt st).x,
        (forward_target trig dt st).y, (forward_target trig dt st).r,
        (forward_target trig dt st).g, (forward_target trig dt st).b⟩] := by
  have hpen2 : (update_location trig dt st.windowWidth st.windowHeight st.sprite).pen
      = true := by
    rw [(update_location_frame trig dt st.windowWidth st.windowHeight st.sprite).2.1]
    exact hpen
  unfold movement_update
  rw [if_pos hup]
  simp only [forward_target]
  simp [hpen2, add_line]

/-- C9: on any `handle_events` call whose drain completes with the Up key
held and the pen down, exactly one trail segment is appended, running from
the pre-advance position to the post-advance (`update_location`) position —
also when clamping makes the two positions equal, in which case the appended
segment is zero-length and the trail still grows by one. -/
theorem draw_move_appends (trig : Trig) (dt : ℚ) (events : List Event) (st : TurtleState)
    (hcont : (drainEvents events st).2 = true)
    (hup : ((drainEvents events st).1).keyUpPressed = true)
    (hpen : ((drainEvents events st).1).sprite.pen = true) :
    ((handle_events trig dt events st).2).lines =
        st.lines ++
          [⟨st.sprite.x, st.sprite.y,
            (forward_target trig dt (rotation_update dt (drainEvents events st).1)).x,
            (forward_target trig dt (rotation_update dt (drainEvents events st).1)).y,
            (forward_target trig dt (rotation_update dt (drainEvents events st).1)).r,
            (forward_target trig dt (rotation_update dt (drainEvents events st).1)).g,
            (forward_target trig dt (rotation_update dt (drainEvents events st).1)).b⟩] ∧
      ((handle_events trig dt events st).2).lines.length = st.lines.length + 1 := by
  rw [(handle_events_cont trig dt events st hcont).1]
  have hframe := rotation_update_frame dt (drainEvents events st).1
  obtain ⟨hfl, hfx, hfy⟩ := drainEvents_frame events st
  have hmv := movement_update_pen_down trig dt (rotation_update dt (drainEvents events st).1)
    (by rw [hframe.2.2.2.2.2.2.2.1]; exact hup)
    (by rw [hframe.2.2.2.1]; exact hpen)
  constructor
  · rw [hmv, hframe.1, hfl, hframe.2.1, hfx, hframe.2.2.1, hfy]
  · rw [hmv, hframe.1, hfl]
    simp

/-- A session state with the marker already sitting on the left clamp
boundary (x = 25), heading 180, pen down, Up key held: the next advance is
fully absorbed by the clamp. -/
def stPinned : TurtleState :=
  { sprite := ⟨25, 400, 180, true, 0, 0, 0⟩
    lines := []
    keyLeftPressed := false
    keyRightPressed := false
    keyUpPressed := true
    windowWidth := 800
    windowHeight := 800 }

/-- C9 witness: at the left wall with heading 180 the clamped advance leaves
the position at (25, 400), and the appended segment is the zero-length
(25,400)-(25,400), growing the trail from 0 to 1 segments. -/
theorem draw_move_appends_witness :
    ((drainEvents [] stPinned).2 = true ∧
        ((drainEvents [] stPinned).1).keyUpPressed = true ∧
        ((drainEvents [] stPinned).1).sprite.pen = true) ∧
      (((handle_events trigWest 1 [] stPinned).2).lines =
          stPinned.lines ++
            [⟨stPinned.sprite.x, stPinned.sprite.y,
              (forward_target trigWest 1 (rotation_update 1 (drainEvents [] stPinned).1)).x,
              (forward_target trigWest 1 (rotation_update 1 (drainEvents [] stPinned).1)).y,
              (forward_target trigWest 1 (rotation_update 1 (drainEvents [] stPinned).1)).r,
              (forward_target trigWest 1 (rotation_update 1 (drainEvents [] stPinned).1)).g,
              (forward_target trigWest 1 (rotation_update 1 (drainEvents [] stPinned).1)).b⟩] ∧
        ((handle_events trigWest 1 [] stPinned).2).lines.length = stPinned.lines.length + 1) ∧
      (forward_target trigWest 1 (rotation_update 1 (drainEvents [] stPinned).1)).x = 25 ∧
      (forward_target trigWest 1 (rotation_update 1 (drainEvents [] stPinned).1)).y = 400 ∧
      stPinned.sprite.x = 25 ∧ stPinned.sprite.y = 400 ∧ stPinned.lines.length = 0 :=
  ⟨⟨rfl, rfl, rfl⟩, draw_move_appends trigWest 1 [] stPinned rfl rfl rfl,
    by norm_num [forward_target, rotation_update, update_location, drainEvents, stPinned,
      trigWest, MOVE_INCREMENT],
    by norm_num [forward_target, rotation_update, update_location, drainEvents, stPinned,
      trigWest, MOVE_INCREMENT],
    rfl, rfl, rfl⟩

/-- C10: after successful initialization the marker sits at the window
center, heading 0, pen up, color black, and the trail store is empty; with
the 800x800 startup window the center is (400, 400). -/
theorem initial_state_spec (w h : ℤ) :
    (initialState w h).sprite.x = (w : ℚ) / 2 ∧
      (initialState w h).sprite.y = (h : ℚ) / 2 ∧
      (initialState w h).sprite.angle = 0 ∧
      (initialState w h).sprite.pen = false ∧
      (initialState w h).sprite.r = 0 ∧
      (initialState w h).sprite.g = 0 ∧
      (initialState w h).sprite.b = 0 ∧
      (initialState w h).lines = [] ∧
      startState = initialState 800 800 ∧
      startState.sprite.x = 400 ∧ startState.sprite.y = 400 :=
  ⟨rfl, rfl, rfl, rfl, rfl, rfl, rfl, rfl, rfl,
    by norm_num [startState, initialState], by norm_num [startState, initialState]⟩

end TurtleGraphics
